import Mathlib

/- Verification of the crisis_intel location-resolution engine.

   Shallow embedding of src/geo/gazetteer.py (class Gazetteer) and
   src/geo/resolve.py (bbox_centroid, resolve_location).

   Modelling conventions:
   - Python numbers (int and float) are modelled as exact rationals.
   - Python dicts are modelled as association lists where an assignment
     conses a new binding in front and lookup returns the most recent
     binding, matching overwrite semantics.
   - Fallible Python code returns Except PyError; an uncaught Python
     exception is an error value.
   - float(...) of a string is modelled by a parser for plain signed
     decimal literals with optional fraction; exotic literal forms
     (exponents, inf, nan, underscores) are out of scope of the claims.
   - unicodedata NFKD decomposition followed by combining-mark removal is
     modelled by an explicit per-character decomposition table covering
     common Latin accented letters and acting as the identity elsewhere;
     str.lower and str.upper are modelled on ASCII letters. The claims
     under verification only exercise ASCII keys.
-/

namespace CrisisIntel

/-- Dynamic Python values as they occur in event records and signal fields. -/
inductive PyVal where
  | none
  | str (s : String)
  | num (q : ℚ)
  | list (xs : List PyVal)
  | bytes (bs : List Nat)

/-- Python exception classes raised by the modelled code. -/
inductive PyError where
  | typeError
  | valueError
  | attributeError
  | keyError
deriving DecidableEq

/-- Python truthiness: None, empty strings, zero, empty lists and empty
bytes are falsy. -/
def pyTruthy : PyVal → Bool
  | PyVal.none => false
  | PyVal.str s => !(s == "")
  | PyVal.num q => !(q == 0)
  | PyVal.list xs => !xs.isEmpty
  | PyVal.bytes bs => !bs.isEmpty

/-- Test for the Python None value (the `is None` check). -/
def pyIsNone : PyVal → Bool
  | PyVal.none => true
  | _ => false

/-- Python len(x): defined for strings, lists and bytes; TypeError otherwise. -/
def pyLen : PyVal → Except PyError Nat
  | PyVal.str s => Except.ok s.length
  | PyVal.list xs => Except.ok xs.length
  | PyVal.bytes bs => Except.ok bs.length
  | _ => Except.error PyError.typeError

/-- Iteration over a sized Python value: a string yields its characters as
one-character strings, a list its elements, bytes its integers. -/
def pyElems : PyVal → List PyVal
  | PyVal.str s => s.data.map (fun c => PyVal.str (String.mk [c]))
  | PyVal.list xs => xs
  | PyVal.bytes bs => bs.map (fun b => PyVal.num b)
  | _ => []

/-- Python whitespace for str.strip and the regex class backslash-s. -/
def pyIsSpace (c : Char) : Bool :=
  c == ' ' || c == '\t' || c == '\n' || c == '\r' || c == '\x0b' || c == '\x0c'

/-- Drop leading and trailing whitespace from a character list. -/
def stripChars (l : List Char) : List Char :=
  ((l.dropWhile pyIsSpace).reverse.dropWhile pyIsSpace).reverse

/-- Python str.strip(). -/
def pyStrip (s : String) : String := String.mk (stripChars s.data)

/-- Python str.upper() (ASCII letters). -/
def pyUpper (s : String) : String := String.mk (s.data.map Char.toUpper)

/-- NFKD decomposition followed by removal of combining marks, as an explicit
table on common Latin accented letters; identity on every other character. -/
def decompChar (c : Char) : List Char :=
  if c == 'á' || c == 'à' || c == 'â' || c == 'ä' || c == 'ã' || c == 'å' then ['a']
  else if c == 'Á' || c == 'À' || c == 'Â' || c == 'Ä' || c == 'Ã' || c == 'Å' then ['A']
  else if c == 'é' || c == 'è' || c == 'ê' || c == 'ë' then ['e']
  else if c == 'É' || c == 'È' || c == 'Ê' || c == 'Ë' then ['E']
  else if c == 'í' || c == 'ì' || c == 'î' || c == 'ï' then ['i']
  else if c == 'Í' || c == 'Ì' || c == 'Î' || c == 'Ï' then ['I']
  else if c == 'ó' || c == 'ò' || c == 'ô' || c == 'ö' || c == 'õ' then ['o']
  else if c == 'Ó' || c == 'Ò' || c == 'Ô' || c == 'Ö' || c == 'Õ' then ['O']
  else if c == 'ú' || c == 'ù' || c == 'û' || c == 'ü' then ['u']
  else if c == 'Ú' || c == 'Ù' || c == 'Û' || c == 'Ü' then ['U']
  else if c == 'ñ' then ['n'] else if c == 'Ñ' then ['N']
  else if c == 'ç' then ['c'] else if c == 'Ç' then ['C']
  else [c]

/-- Word characters of the regex class backslash-w (ASCII scope). -/
def isWordChar (c : Char) : Bool := c.isAlphanum || c == '_'

/-- Characters kept by the substitution removing everything outside
word characters, whitespace, hyphen and comma. -/
def isKeepChar (c : Char) : Bool := isWordChar c || pyIsSpace c || c == '-' || c == ','

/-- Replace each maximal run of whitespace by a single space; the Bool flag
records being inside a run. -/
def collapseWsAux : Bool → List Char → List Char
  | _, [] => []
  | inRun, c :: r =>
    if pyIsSpace c then
      if inRun then collapseWsAux true r else ' ' :: collapseWsAux true r
    else c :: collapseWsAux false r

/-- The regex substitution collapsing whitespace runs to single spaces. -/
def collapseWs (l : List Char) : List Char := collapseWsAux false l

/-- Gazetteer._normalize on a string argument (gazetteer.py lines 27 to 36):
empty input gives the empty key; otherwise NFKD-fold accents, lowercase,
strip, drop characters outside word/space/hyphen/comma, collapse whitespace. -/
def pyNormalize (s : String) : String :=
  if s == "" then ""
  else
    let l := (s.data.map decompChar).flatten
    let l := l.map Char.toLower
    let l := stripChars l
    let l := l.filter isKeepChar
    String.mk (collapseWs l)

/-- Gazetteer._normalize as invoked on a dynamic value: Python first
evaluates the truthiness test (so any falsy value returns the empty key),
then the unicodedata call raises TypeError for a truthy non-string. -/
def pyNormalizeVal (v : PyVal) : Except PyError String :=
  if !(pyTruthy v) then Except.ok ""
  else match v with
    | PyVal.str s => Except.ok (pyNormalize s)
    | _ => Except.error PyError.typeError

/-- Numeric value of a digit list, most significant first. -/
def natOfDigits (l : List Char) : ℕ := l.foldl (fun a c => a * 10 + (c.toNat - 48)) 0

def allDigits (l : List Char) : Bool := l.all Char.isDigit

/-- Model of Python float(string): surrounding whitespace allowed, optional
sign, decimal digits with optional fractional part. -/
def parseFloatChars (l0 : List Char) : Option ℚ :=
  let l1 := stripChars l0
  let sp : ℚ × List Char :=
    match l1 with
    | '+' :: r => (1, r)
    | '-' :: r => (-1, r)
    | r => (1, r)
  let ip := sp.2.takeWhile (fun c => !(c == '.'))
  let rest := sp.2.dropWhile (fun c => !(c == '.'))
  if allDigits ip then
    match rest with
    | [] => if ip.isEmpty then Option.none else some (sp.1 * natOfDigits ip)
    | '.' :: fp =>
      if allDigits fp && !(ip.isEmpty && fp.isEmpty) then
        some (sp.1 * ((natOfDigits ip : ℚ) + (natOfDigits fp : ℚ) / (10 : ℚ) ^ fp.length))
      else Option.none
    | _ => Option.none
  else Option.none

/-- Model of Python int(string): optional sign, digits only. -/
def parseIntChars (l0 : List Char) : Option ℤ :=
  let l1 := stripChars l0
  let sp : ℤ × List Char :=
    match l1 with
    | '+' :: r => (1, r)
    | '-' :: r => (-1, r)
    | r => (1, r)
  if !sp.2.isEmpty && allDigits sp.2 then some (sp.1 * natOfDigits sp.2) else Option.none

/-- float(s) for a string s: ValueError when unparsable. -/
def pyFloatStr (s : String) : Except PyError ℚ :=
  match parseFloatChars s.data with
  | some q => Except.ok q
  | Option.none => Except.error PyError.valueError

/-- float(x) on a dynamic value: numbers pass through, strings and bytes are
parsed (ValueError on failure), None and lists raise TypeError. -/
def pyFloat : PyVal → Except PyError ℚ
  | PyVal.num q => Except.ok q
  | PyVal.str s => pyFloatStr s
  | PyVal.bytes bs =>
      match parseFloatChars (bs.map Char.ofNat) with
      | some q => Except.ok q
      | Option.none => Except.error PyError.valueError
  | PyVal.none => Except.error PyError.typeError
  | PyVal.list _ => Except.error PyError.typeError

/-- Dictionary lookup on an association list; the most recent binding wins. -/
def dlookup {α : Type} (k : String) : List (String × α) → Option α
  | [] => Option.none
  | (k', v) :: r => if k = k' then some v else dlookup k r

/-- An event record: a Python dict from string keys to dynamic values. -/
abbrev Rec := List (String × PyVal)

/-- Dict assignment result[k] = v. -/
def Rec.set (k : String) (v : PyVal) (r : Rec) : Rec := (k, v) :: r

/-- result.get(k), defaulting to None. -/
def Rec.get (r : Rec) (k : String) : PyVal := (dlookup k r).getD PyVal.none

/-- result.get(k, d). -/
def Rec.getD (r : Rec) (k : String) (d : PyVal) : PyVal := (dlookup k r).getD d

/-- x.strip() on a dynamic value: AttributeError unless x is a string. -/
def pyStripVal : PyVal → Except PyError String
  | PyVal.str s => Except.ok (pyStrip s)
  | _ => Except.error PyError.attributeError

/-- One country entry of the gazetteer. -/
structure CountryEntry where
  lat : ℚ
  lon : ℚ
  name : String
  iso2 : String
  iso3 : String
  pop : ℤ

/-- One admin1 entry of the gazetteer. -/
structure Admin1Entry where
  lat : ℚ
  lon : ℚ
  name : String
  country_iso2 : String

/-- One city entry of the gazetteer. -/
structure CityEntry where
  lat : ℚ
  lon : ℚ
  name : String
  admin1_name : String
  country_iso2 : String
  pop : ℤ

/-- The five lookup tables built by Gazetteer.__init__. -/
structure Gazetteer where
  country_by_iso2 : List (String × CountryEntry)
  country_by_iso3 : List (String × CountryEntry)
  country_by_name : List (String × CountryEntry)
  admin1_by_key : List (String × Admin1Entry)
  cities_by_key : List (String × CityEntry)

def emptyGazetteer : Gazetteer := ⟨[], [], [], [], []⟩

/-- One raw CSV row as produced by csv.DictReader: column name to cell text. -/
abbrev Row := List (String × String)

/-- row[k]: KeyError when the column is missing. -/
def rowGet (row : Row) (k : String) : Except PyError String :=
  match dlookup k row with
  | some v => Except.ok v
  | Option.none => Except.error PyError.keyError

/-- int(row.get(k, 0)): 0 when the column is missing, otherwise the parsed
integer, ValueError when unparsable. -/
def rowGetIntD (row : Row) (k : String) : Except PyError ℤ :=
  match dlookup k row with
  | Option.none => Except.ok 0
  | some s =>
      match parseIntChars s.data with
      | some n => Except.ok n
      | Option.none => Except.error PyError.valueError

/-- Loop body of Gazetteer._load_countries (lines 46 to 58): any unparsable
numeric field raises out of the loop, there is no row-level handler. -/
def loadCountryRow (g : Gazetteer) (row : Row) : Except PyError Gazetteer := do
  let iso2 := pyUpper (← rowGet row "iso2")
  let iso3 := pyUpper (← rowGet row "iso3")
  let name ← rowGet row "name"
  let lat ← pyFloatStr (← rowGet row "lat")
  let lon ← pyFloatStr (← rowGet row "lon")
  let pop ← rowGetIntD row "population"
  let entry : CountryEntry := ⟨lat, lon, name, iso2, iso3, pop⟩
  pure { g with
    country_by_iso2 := (iso2, entry) :: g.country_by_iso2,
    country_by_iso3 := (iso3, entry) :: g.country_by_iso3,
    country_by_name := (pyNormalize name, entry) :: g.country_by_name }

/-- Gazetteer._load_countries: a missing file (modelled as Option.none) only
prints a warning and leaves the table untouched; otherwise the rows are
folded in order. -/
def load_countries (file : Option (List Row)) (g : Gazetteer) : Except PyError Gazetteer :=
  match file with
  | Option.none => Except.ok g
  | some rows => rows.foldlM loadCountryRow g

/-- Loop body of Gazetteer._load_admin1 (lines 68 to 80). -/
def loadAdmin1Row (g : Gazetteer) (row : Row) : Except PyError Gazetteer := do
  let ciso := pyUpper (← rowGet row "country_iso2")
  let adm ← rowGet row "admin1_name"
  let lat ← pyFloatStr (← rowGet row "lat")
  let lon ← pyFloatStr (← rowGet row "lon")
  pure { g with
    admin1_by_key := (ciso ++ ":" ++ pyNormalize adm, ⟨lat, lon, adm, ciso⟩) :: g.admin1_by_key }

/-- Gazetteer._load_admin1. -/
def load_admin1 (file : Option (List Row)) (g : Gazetteer) : Except PyError Gazetteer :=
  match file with
  | Option.none => Except.ok g
  | some rows => rows.foldlM loadAdmin1Row g

/-- Field extraction of one city row (lines 91 to 96). -/
def parseCityRow (row : Row) : Except PyError CityEntry := do
  let ciso := pyUpper (← rowGet row "country_iso2")
  let adm ← rowGet row "admin1_name"
  let city ← rowGet row "city"
  let lat ← pyFloatStr (← rowGet row "lat")
  let lon ← pyFloatStr (← rowGet row "lon")
  let pop ← rowGetIntD row "pop"
  pure ⟨lat, lon, city, adm, ciso, pop⟩

/-- Sequential parse of all city rows, left to right, first failure
raising, mirroring the loop of _load_cities. -/
def parseCityRows : List Row → Except PyError (List CityEntry)
  | [] => Except.ok []
  | row :: rows =>
    match parseCityRow row with
    | Except.error e => Except.error e
    | Except.ok entry =>
      match parseCityRows rows with
      | Except.error e => Except.error e
      | Except.ok es => Except.ok (entry :: es)

/-- The admin-qualified key country:admin:city (line 101). -/
def cityTripleKey (e : CityEntry) : String :=
  e.country_iso2 ++ ":" ++ pyNormalize e.admin1_name ++ ":" ++ pyNormalize e.name

/-- The admin-agnostic key country:city (line 102). -/
def cityDoubleKey (e : CityEntry) : String :=
  e.country_iso2 ++ ":" ++ pyNormalize e.name

/-- Insertions performed for one parsed city row (lines 113 to 116): the
triple key is written unconditionally; the double key is written when it is
absent or the incoming population is strictly larger. -/
def insertCityEntry (m : List (String × CityEntry)) (e : CityEntry) :
    List (String × CityEntry) :=
  match dlookup (cityDoubleKey e) ((cityTripleKey e, e) :: m) with
  | Option.none => (cityDoubleKey e, e) :: (cityTripleKey e, e) :: m
  | some old =>
    if e.pop > old.pop then (cityDoubleKey e, e) :: (cityTripleKey e, e) :: m
    else (cityTripleKey e, e) :: m

/-- Loop body of Gazetteer._load_cities (lines 90 to 116). -/
def loadCityRow (m : List (String × CityEntry)) (row : Row) :
    Except PyError (List (String × CityEntry)) := do
  let e ← parseCityRow row
  pure (insertCityEntry m e)

/-- Gazetteer._load_cities. -/
def load_cities (file : Option (List Row)) (g : Gazetteer) : Except PyError Gazetteer :=
  match file with
  | Option.none => Except.ok g
  | some rows => do
      let m ← rows.foldlM loadCityRow g.cities_by_key
      pure { g with cities_by_key := m }

/-- The alias literal of Gazetteer._build_aliases, in source order. -/
def aliasTable : List (String × String) :=
  [("usa", "US"), ("u.s.", "US"), ("united states of america", "US"), ("america", "US"),
   ("uk", "GB"), ("united kingdom", "GB"), ("britain", "GB"), ("england", "GB"),
   ("drc", "CD"), ("democratic republic of the congo", "CD"),
   ("uae", "AE"), ("emirates", "AE")]

/-- Gazetteer._build_aliases: merge aliases into the name index without
overwriting an already-present key, skipping aliases whose target country
is not loaded. -/
def build_aliases (g : Gazetteer) : Gazetteer :=
  aliasTable.foldl (fun g p =>
    let norm := pyNormalize p.1
    match dlookup p.2 g.country_by_iso2 with
    | some entry =>
        if (dlookup norm g.country_by_name).isNone then
          { g with country_by_name := (norm, entry) :: g.country_by_name }
        else g
    | Option.none => g) g

/-- Gazetteer.__init__: load the three tables, each file being some rows
when present and Option.none when missing, then build aliases. -/
def Gazetteer.build (countries admin1s cities : Option (List Row)) :
    Except PyError Gazetteer := do
  let g ← load_countries countries emptyGazetteer
  let g ← load_admin1 admin1s g
  let g ← load_cities cities g
  pure (build_aliases g)

/-- Gazetteer.find_country (lines 140 to 154). -/
def Gazetteer.find_country (g : Gazetteer) (name_or_code : String) : Option CountryEntry :=
  if name_or_code = "" then Option.none
  else
    let code_upper := pyStrip (pyUpper name_or_code)
    if code_upper.length == 2 && (dlookup code_upper g.country_by_iso2).isSome then
      dlookup code_upper g.country_by_iso2
    else if code_upper.length == 3 && (dlookup code_upper g.country_by_iso3).isSome then
      dlookup code_upper g.country_by_iso3
    else dlookup (pyNormalize name_or_code) g.country_by_name

/-- Gazetteer.find_admin1 (lines 156 to 165). -/
def Gazetteer.find_admin1 (g : Gazetteer) (country_code admin1_name : String) :
    Option Admin1Entry :=
  if country_code = "" ∨ admin1_name = "" then Option.none
  else dlookup (pyStrip (pyUpper country_code) ++ ":" ++ pyNormalize admin1_name) g.admin1_by_key

/-- Gazetteer.find_city (lines 167 to 182): with an admin name, try the
admin-qualified key first and return on a hit; otherwise fall back to the
admin-agnostic key. -/
def Gazetteer.find_city (g : Gazetteer) (country_code admin1_name city_name : String) :
    Option CityEntry :=
  if country_code = "" ∨ city_name = "" then Option.none
  else
    let ccu := pyStrip (pyUpper country_code)
    let nc := pyNormalize city_name
    let viaAdmin :=
      if admin1_name ≠ "" then
        dlookup (ccu ++ ":" ++ pyNormalize admin1_name ++ ":" ++ nc) g.cities_by_key
      else Option.none
    match viaAdmin with
    | some e => some e
    | Option.none => dlookup (ccu ++ ":" ++ nc) g.cities_by_key

/-- Python list splitting on the comma separator. -/
def splitComma : List Char → List (List Char)
  | [] => [[]]
  | c :: r =>
    if c = ',' then [] :: splitComma r
    else match splitComma r with
      | [] => [[c]]
      | h :: t => (c :: h) :: t

/-- The comprehension applying float() to each member, left to right, with
the first failure raising. -/
def mapFloats : List PyVal → Except PyError (List ℚ)
  | [] => Except.ok []
  | v :: vs =>
    match pyFloat v with
    | Except.error e => Except.error e
    | Except.ok q =>
      match mapFloats vs with
      | Except.error e => Except.error e
      | Except.ok qs => Except.ok (q :: qs)

/-- bbox_centroid (resolve.py lines 4 to 19). The falsy and arity checks sit
outside the try block, so len() of an unsized value raises; float failures
inside the comprehension are caught and give None, as does an out-of-bounds
midpoint. -/
def bbox_centroid (bbox : PyVal) : Except PyError (Option (ℚ × ℚ)) :=
  if !(pyTruthy bbox) then Except.ok Option.none
  else match pyLen bbox with
  | Except.error e => Except.error e
  | Except.ok n =>
    if n ≠ 4 then Except.ok Option.none
    else match mapFloats (pyElems bbox) with
      | Except.error _ => Except.ok Option.none
      | Except.ok [min_lon, min_lat, max_lon, max_lat] =>
          let lat := (min_lat + max_lat) / 2
          let lon := (min_lon + max_lon) / 2
          if -90 ≤ lat ∧ lat ≤ 90 ∧ -180 ≤ lon ∧ lon ≤ 180 then
            Except.ok (some (lat, lon))
          else Except.ok Option.none
      | Except.ok _ => Except.ok Option.none

/-- Lines 31 to 35 of resolve_location: copy the record and preset the three
result fields. -/
def initRec (rec : Rec) : Rec :=
  Rec.set "loc_notes" (PyVal.str "")
    (Rec.set "loc_confidence" (PyVal.num 0) (Rec.set "loc_method" PyVal.none rec))

/-- The five assignments every successful tier performs: lat, lon,
loc_method, loc_confidence, loc_notes, in source order. -/
def setResult (res : Rec) (la lo : ℚ) (method : String) (conf : ℚ) (notes : String) : Rec :=
  Rec.set "loc_notes" (PyVal.str notes)
    (Rec.set "loc_confidence" (PyVal.num conf)
      (Rec.set "loc_method" (PyVal.str method)
        (Rec.set "lon" (PyVal.num lo) (Rec.set "lat" (PyVal.num la) res))))

/-- Tier 1 (lines 37 to 52): provided coordinates. float failures are caught
and out-of-range coordinates fall through to the next tier. -/
def tier1 (result : Rec) : Option Rec :=
  if pyIsNone (result.get "lat") || pyIsNone (result.get "lon") then Option.none
  else match pyFloat (result.get "lat"), pyFloat (result.get "lon") with
    | Except.ok la, Except.ok lo =>
        if -90 ≤ la ∧ la ≤ 90 ∧ -180 ≤ lo ∧ lo ≤ 180 then
          some (setResult result la lo "provided_point" 1 "Coordinates provided in source data")
        else Option.none
    | _, _ => Option.none

/-- Tier 2 (lines 54 to 62): bounding-box centroid. An error raised by
bbox_centroid propagates. -/
def tier2 (result : Rec) : Except PyError (Option Rec) :=
  if pyTruthy (result.get "bbox") then
    match bbox_centroid (result.get "bbox") with
    | Except.error e => Except.error e
    | Except.ok (some (la, lo)) =>
        Except.ok (some (setResult result la lo "bbox_centroid" 0.8 "Centroid of bounding box"))
    | Except.ok Option.none => Except.ok Option.none
  else Except.ok Option.none

/-- Lines 70 to 74: country resolution, attempted once, code before name. -/
def resolveCountryData (gaz : Gazetteer) (country_code country_name : String) :
    Option CountryEntry :=
  let cd := if country_code ≠ "" then gaz.find_country country_code else Option.none
  match cd with
  | some c => some c
  | Option.none => if country_name ≠ "" then gaz.find_country country_name else Option.none

/-- Confidence composition of tier 3 (lines 82 to 86): base 0.75, plus 0.05
when an admin name was supplied, plus 0.05 when the matched population
exceeds one million. -/
def cityConfidence (admin1_name : String) (cityd : CityEntry) : ℚ :=
  let confidence : ℚ := 0.75
  let confidence := if admin1_name ≠ "" then confidence + 0.05 else confidence
  if cityd.pop > 1000000 then confidence + 0.05 else confidence

/-- Tier 3 (lines 76 to 89): structured city geocode with composed
confidence capped at 1. -/
def tier3 (result : Rec) (gaz : Gazetteer) (c : CountryEntry) (admin1_name city_name : String) :
    Option Rec :=
  if city_name ≠ "" then
    match gaz.find_city c.iso2 admin1_name city_name with
    | some cityd =>
        some (setResult result cityd.lat cityd.lon "city_geocode"
          (min (cityConfidence admin1_name cityd) 1)
          ("City: " ++ cityd.name ++ ", " ++ c.name))
    | Option.none => Option.none
  else Option.none

/-- Tier 4 (lines 91 to 105): city parsed from a combined place name. -/
def tier4 (result : Rec) (gaz : Gazetteer) (c : CountryEntry) (place_name : String) :
    Option Rec :=
  if place_name ≠ "" ∧ ',' ∈ place_name.data then
    if ((splitComma place_name.data).map (fun p => pyStrip (String.mk p))).length ≥ 2 then
      match (splitComma place_name.data).map (fun p => pyStrip (String.mk p)) with
      | possible_city :: possible_admin1 :: _ =>
          match gaz.find_city c.iso2 possible_admin1 possible_city with
          | some cityd =>
              some (setResult result cityd.lat cityd.lon "city_geocode" 0.72
                ("Parsed from place name: " ++ cityd.name))
          | Option.none => Option.none
      | _ => Option.none
    else Option.none
  else Option.none

/-- Tier 5 (lines 107 to 115): admin1 centroid. -/
def tier5 (result : Rec) (gaz : Gazetteer) (c : CountryEntry) (admin1_name : String) :
    Option Rec :=
  if admin1_name ≠ "" then
    match gaz.find_admin1 c.iso2 admin1_name with
    | some ad =>
        some (setResult result ad.lat ad.lon "admin1_centroid" 0.7
          ("Admin1: " ++ ad.name ++ ", " ++ c.name))
    | Option.none => Option.none
  else Option.none

/-- Tier 6 (lines 117 to 123): country centroid, unconditional once the
country resolved. -/
def tier6 (result : Rec) (c : CountryEntry) : Rec :=
  setResult result c.lat c.lon "country_centroid" 0.6 ("Country: " ++ c.name)

/-- Lines 125 to 126: the unresolved terminal state. -/
def unresolvedRec (result : Rec) : Rec :=
  Rec.set "loc_notes" (PyVal.str "Could not resolve location") result

/-- Lines 64 to 126 after the five field extractions: each of tiers 3 to 5
is guarded by its field and by the resolved country, tier 6 only by the
country, so a missing country falls straight to the unresolved state. -/
def tiers3to7 (result : Rec) (gaz : Gazetteer) (cc cn a1 cy pn : String) : Rec :=
  match resolveCountryData gaz cc cn with
  | Option.none => unresolvedRec result
  | some c =>
    match tier3 result gaz c a1 cy with
    | some r => r
    | Option.none =>
      match tier4 result gaz c pn with
      | some r => r
      | Option.none =>
        match tier5 result gaz c a1 with
        | some r => r
        | Option.none => tier6 result c

/-- resolve_location (resolve.py lines 21 to 126). The five text fields are
extracted with get(field, empty) followed by strip() (and upper() for the
country code); a non-string present value makes strip() raise
AttributeError, which nothing catches. -/
def resolve_location (rec : Rec) (gaz : Gazetteer) : Except PyError Rec :=
  match tier1 (initRec rec) with
  | some r => Except.ok r
  | Option.none =>
    match tier2 (initRec rec) with
    | Except.error e => Except.error e
    | Except.ok (some r) => Except.ok r
    | Except.ok Option.none =>
      match pyStripVal ((initRec rec).getD "country_code" (PyVal.str "")) with
      | Except.error e => Except.error e
      | Except.ok cc0 =>
        match pyStripVal ((initRec rec).getD "country" (PyVal.str "")) with
        | Except.error e => Except.error e
        | Except.ok cn =>
          match pyStripVal ((initRec rec).getD "admin1" (PyVal.str "")) with
          | Except.error e => Except.error e
          | Except.ok a1 =>
            match pyStripVal ((initRec rec).getD "city" (PyVal.str "")) with
            | Except.error e => Except.error e
            | Except.ok cy =>
              match pyStripVal ((initRec rec).getD "place_name" (PyVal.str "")) with
              | Except.error e => Except.error e
              | Except.ok pn =>
                  Except.ok (tiers3to7 (initRec rec) gaz (pyUpper cc0) cn a1 cy pn)

/-- Number of colon separators in a key string. -/
def numColons (s : String) : ℕ := s.data.count ':'

/- ---------- concrete data used by witnesses ---------- -/

/-- A United States country entry for concrete scenarios. -/
def usEntry : CountryEntry := ⟨37.09, -95.71, "United States", "US", "USA", 331000000⟩

/-- A Los Angeles city entry with population above one million. -/
def laEntry : CityEntry := ⟨34.05, -118.24, "Los Angeles", "California", "US", 3900000⟩

/-- A small concrete gazetteer holding the United States and Los Angeles. -/
def gazLA : Gazetteer :=
  ⟨[("US", usEntry)], [("USA", usEntry)], [("united states", usEntry)], [],
   [("US:california:los angeles", laEntry), ("US:los angeles", laEntry)]⟩

/- ---------- basic lemmas about the dictionary model ---------- -/

theorem dlookup_cons_self {α : Type} (k : String) (v : α) (r : List (String × α)) :
    dlookup k ((k, v) :: r) = some v := by simp [dlookup]

theorem dlookup_cons_ne {α : Type} {k k' : String} (h : k ≠ k') (v : α)
    (r : List (String × α)) : dlookup k ((k', v) :: r) = dlookup k r := by
  simp [dlookup, h]

theorem setResult_method (res : Rec) (la lo : ℚ) (m : String) (c : ℚ) (n : String) :
    dlookup "loc_method" (setResult res la lo m c n) = some (PyVal.str m) := by
  simp [setResult, Rec.set, dlookup]

theorem setResult_conf (res : Rec) (la lo : ℚ) (m : String) (c : ℚ) (n : String) :
    dlookup "loc_confidence" (setResult res la lo m c n) = some (PyVal.num c) := by
  simp [setResult, Rec.set, dlookup]

theorem setResult_lat (res : Rec) (la lo : ℚ) (m : String) (c : ℚ) (n : String) :
    dlookup "lat" (setResult res la lo m c n) = some (PyVal.num la) := by
  simp [setResult, Rec.set, dlookup]

theorem setResult_lon (res : Rec) (la lo : ℚ) (m : String) (c : ℚ) (n : String) :
    dlookup "lon" (setResult res la lo m c n) = some (PyVal.num lo) := by
  simp [setResult, Rec.set, dlookup]

theorem setResult_frame {k : String} (res : Rec) (la lo : ℚ) (m : String) (c : ℚ) (n : String)
    (h1 : k ≠ "lat") (h2 : k ≠ "lon") (h3 : k ≠ "loc_method")
    (h4 : k ≠ "loc_confidence") (h5 : k ≠ "loc_notes") :
    dlookup k (setResult res la lo m c n) = dlookup k res := by
  simp [setResult, Rec.set, dlookup, h1, h2, h3, h4, h5]

theorem initRec_frame {k : String} (rec : Rec)
    (h3 : k ≠ "loc_method") (h4 : k ≠ "loc_confidence") (h5 : k ≠ "loc_notes") :
    dlookup k (initRec rec) = dlookup k rec := by
  simp [initRec, Rec.set, dlookup, h3, h4, h5]

theorem unresolvedRec_frame {k : String} (res : Rec) (h5 : k ≠ "loc_notes") :
    dlookup k (unresolvedRec res) = dlookup k res := by
  simp [unresolvedRec, Rec.set, dlookup, h5]

theorem unresolved_conf (rec : Rec) :
    dlookup "loc_confidence" (unresolvedRec (initRec rec)) = some (PyVal.num 0) := by
  simp [unresolvedRec, initRec, Rec.set, dlookup]

theorem unresolved_method (rec : Rec) :
    dlookup "loc_method" (unresolvedRec (initRec rec)) = some PyVal.none := by
  simp [unresolvedRec, initRec, Rec.set, dlookup]

theorem get_initRec {k : String} (rec : Rec)
    (h3 : k ≠ "loc_method") (h4 : k ≠ "loc_confidence") (h5 : k ≠ "loc_notes") :
    Rec.get (initRec rec) k = Rec.get rec k := by
  simp [Rec.get, initRec_frame rec h3 h4 h5]

theorem getD_initRec {k : String} (rec : Rec) (d : PyVal)
    (h3 : k ≠ "loc_method") (h4 : k ≠ "loc_confidence") (h5 : k ≠ "loc_notes") :
    Rec.getD (initRec rec) k d = Rec.getD rec k d := by
  simp [Rec.getD, initRec_frame rec h3 h4 h5]

/- ---------- shape lemmas for the tiers ---------- -/

theorem cityConfidence_ge (a1 : String) (cityd : CityEntry) :
    (0.75 : ℚ) ≤ cityConfidence a1 cityd := by
  simp only [cityConfidence]
  split_ifs <;> norm_num

theorem cityConfidence_eq (a1 : String) (cityd : CityEntry) :
    cityConfidence a1 cityd =
      0.75 + (if a1 ≠ "" then (0.05 : ℚ) else 0) +
        (if cityd.pop > 1000000 then (0.05 : ℚ) else 0) := by
  simp only [cityConfidence]
  split_ifs <;> ring

theorem tier1_shape {res r : Rec} (h : tier1 res = some r) :
    ∃ la lo, r = setResult res la lo "provided_point" 1 "Coordinates provided in source data" := by
  unfold tier1 at h
  split at h
  · exact absurd h (by simp)
  · split at h
    · split at h
      · exact ⟨_, _, (Option.some.inj h).symm⟩
      · exact absurd h (by simp)
    · exact absurd h (by simp)

theorem tier2_shape {res r : Rec} (h : tier2 res = Except.ok (some r)) :
    ∃ la lo, r = setResult res la lo "bbox_centroid" 0.8 "Centroid of bounding box" := by
  unfold tier2 at h
  split at h
  · split at h
    · exact absurd h (by simp)
    · exact ⟨_, _, (Option.some.inj (Except.ok.inj h)).symm⟩
    · exact absurd h (by simp)
  · exact absurd h (by simp)

theorem tier3_shape {res r : Rec} {gaz : Gazetteer} {c : CountryEntry} {a1 cy : String}
    (h : tier3 res gaz c a1 cy = some r) :
    ∃ la lo conf n, r = setResult res la lo "city_geocode" conf n ∧ 0 < conf ∧ conf ≤ 1 := by
  unfold tier3 at h
  split at h
  · split at h
    · rename_i cityd heq
      refine ⟨cityd.lat, cityd.lon, min (cityConfidence a1 cityd) 1, _,
        (Option.some.inj h).symm, ?_, min_le_right _ _⟩
      have hge := cityConfidence_ge a1 cityd
      have h1 : (0 : ℚ) < cityConfidence a1 cityd := by linarith
      exact lt_min h1 (by norm_num)
    · exact absurd h (by simp)
  · exact absurd h (by simp)

theorem tier4_shape {res r : Rec} {gaz : Gazetteer} {c : CountryEntry} {pn : String}
    (h : tier4 res gaz c pn = some r) :
    ∃ la lo n, r = setResult res la lo "city_geocode" 0.72 n := by
  unfold tier4 at h
  split at h
  · split at h
    · split at h
      · split at h
        · exact ⟨_, _, _, (Option.some.inj h).symm⟩
        · exact absurd h (by simp)
      · exact absurd h (by simp)
    · exact absurd h (by simp)
  · exact absurd h (by simp)

theorem tier5_shape {res r : Rec} {gaz : Gazetteer} {c : CountryEntry} {a1 : String}
    (h : tier5 res gaz c a1 = some r) :
    ∃ la lo n, r = setResult res la lo "admin1_centroid" 0.7 n := by
  unfold tier5 at h
  split at h
  · split at h
    · exact ⟨_, _, _, (Option.some.inj h).symm⟩
    · exact absurd h (by simp)
  · exact absurd h (by simp)

theorem tiers3to7_shape (res : Rec) (gaz : Gazetteer) (cc cn a1 cy pn : String) :
    (∃ la lo m conf n, tiers3to7 res gaz cc cn a1 cy pn = setResult res la lo m conf n ∧
      0 < conf ∧ conf ≤ 1) ∨ tiers3to7 res gaz cc cn a1 cy pn = unresolvedRec res := by
  cases hcd : resolveCountryData gaz cc cn with
  | none => right; simp [tiers3to7, hcd]
  | some c =>
    cases h3 : tier3 res gaz c a1 cy with
    | some r =>
      obtain ⟨la, lo, conf, n, hr, h0, h1⟩ := tier3_shape h3
      exact Or.inl ⟨la, lo, "city_geocode", conf, n, by simp [tiers3to7, hcd, h3, hr], h0, h1⟩
    | none =>
      cases h4 : tier4 res gaz c pn with
      | some r =>
        obtain ⟨la, lo, n, hr⟩ := tier4_shape h4
        exact Or.inl ⟨la, lo, "city_geocode", 0.72, n, by simp [tiers3to7, hcd, h3, h4, hr],
          by norm_num, by norm_num⟩
      | none =>
        cases h5 : tier5 res gaz c a1 with
        | some r =>
          obtain ⟨la, lo, n, hr⟩ := tier5_shape h5
          exact Or.inl ⟨la, lo, "admin1_centroid", 0.7, n, by simp [tiers3to7, hcd, h3, h4, h5, hr],
            by norm_num, by norm_num⟩
        | none =>
          exact Or.inl ⟨c.lat, c.lon, "country_centroid", 0.6, "Country: " ++ c.name,
            by simp [tiers3to7, tier6, hcd, h3, h4, h5], by norm_num, by norm_num⟩

/-- Every successful resolution is either one of the tier results (all of
which write the five result fields through setResult with a confidence in
the half-open interval) or the unresolved terminal record. -/
theorem resolve_cases (rec : Rec) (gaz : Gazetteer) (r : Rec)
    (h : resolve_location rec gaz = Except.ok r) :
    (∃ la lo m conf n, r = setResult (initRec rec) la lo m conf n ∧ 0 < conf ∧ conf ≤ 1)
      ∨ r = unresolvedRec (initRec rec) := by
  unfold resolve_location at h
  cases h1 : tier1 (initRec rec) with
  | some r1 =>
    simp only [h1] at h
    obtain ⟨la, lo, hr⟩ := tier1_shape h1
    exact Or.inl ⟨la, lo, _, _, _, by rw [← Except.ok.inj h, hr], by norm_num, by norm_num⟩
  | none =>
    simp only [h1] at h
    cases h2 : tier2 (initRec rec) with
    | error e => simp [h2] at h
    | ok o =>
      simp only [h2] at h
      cases o with
      | some r2 =>
        obtain ⟨la, lo, hr⟩ := tier2_shape h2
        exact Or.inl ⟨la, lo, _, _, _, by rw [← Except.ok.inj h, hr], by norm_num, by norm_num⟩
      | none =>
        cases hs1 : pyStripVal ((initRec rec).getD "country_code" (PyVal.str "")) with
        | error e => simp [hs1] at h
        | ok cc0 =>
          simp only [hs1] at h
          cases hs2 : pyStripVal ((initRec rec).getD "country" (PyVal.str "")) with
          | error e => simp [hs2] at h
          | ok cn =>
            simp only [hs2] at h
            cases hs3 : pyStripVal ((initRec rec).getD "admin1" (PyVal.str "")) with
            | error e => simp [hs3] at h
            | ok a1 =>
              simp only [hs3] at h
              cases hs4 : pyStripVal ((initRec rec).getD "city" (PyVal.str "")) with
              | error e => simp [hs4] at h
              | ok cy =>
                simp only [hs4] at h
                cases hs5 : pyStripVal ((initRec rec).getD "place_name" (PyVal.str "")) with
                | error e => simp [hs5] at h
                | ok pn =>
                  simp only [hs5] at h
                  rw [← Except.ok.inj h]
                  exact tiers3to7_shape (initRec rec) gaz (pyUpper cc0) cn a1 cy pn

/- ---------- C1 ---------- -/

/-- C1: for every input record and every gazetteer, a record returned by
resolve_location carries loc_confidence in the closed interval [0, 1], and
the confidence is 0 exactly when loc_method is None. -/
theorem loc_confidence_invariant (rec : Rec) (gaz : Gazetteer) (r : Rec)
    (h : resolve_location rec gaz = Except.ok r) :
    ∃ c : ℚ, dlookup "loc_confidence" r = some (PyVal.num c) ∧ 0 ≤ c ∧ c ≤ 1 ∧
      (c = 0 ↔ dlookup "loc_method" r = some PyVal.none) := by
  rcases resolve_cases rec gaz r h with ⟨la, lo, m, conf, n, rfl, h0, h1⟩ | rfl
  · refine ⟨conf, setResult_conf _ _ _ _ _ _, h0.le, h1, ?_⟩
    rw [setResult_method]
    constructor
    · intro hc; exact absurd hc (ne_of_gt h0)
    · intro hm; exact absurd hm (by simp)
  · exact ⟨0, unresolved_conf rec, le_refl 0, by norm_num, by simp [unresolved_method]⟩

/-- Witness for C1 at the empty record and empty gazetteer, which resolves
to the unresolved terminal state. -/
theorem loc_confidence_invariant_witness :
    ∃ c : ℚ, dlookup "loc_confidence" (unresolvedRec (initRec [])) = some (PyVal.num c) ∧
      0 ≤ c ∧ c ≤ 1 ∧
      (c = 0 ↔ dlookup "loc_method" (unresolvedRec (initRec [])) = some PyVal.none) :=
  loc_confidence_invariant [] emptyGazetteer (unresolvedRec (initRec [])) rfl

/- ---------- C10 ---------- -/

/-- C10: resolve_location does not touch the input record (the embedding
returns a fresh record built over a copy); every key other than lat, lon,
loc_method, loc_confidence and loc_notes keeps its original value in the
returned record. -/
theorem resolve_preserves_other_keys (rec : Rec) (gaz : Gazetteer) (r : Rec)
    (h : resolve_location rec gaz = Except.ok r) (k : String)
    (h1 : k ≠ "lat") (h2 : k ≠ "lon") (h3 : k ≠ "loc_method")
    (h4 : k ≠ "loc_confidence") (h5 : k ≠ "loc_notes") :
    dlookup k r = dlookup k rec := by
  rcases resolve_cases rec gaz r h with ⟨la, lo, m, conf, n, rfl, _, _⟩ | rfl
  · rw [setResult_frame _ _ _ _ _ _ h1 h2 h3 h4 h5, initRec_frame rec h3 h4 h5]
  · rw [unresolvedRec_frame _ h5, initRec_frame rec h3 h4 h5]

/-- Witness for C10: a foreign key survives resolution unchanged. -/
theorem resolve_preserves_other_keys_witness :
    dlookup "title" (unresolvedRec (initRec [("title", PyVal.str "flood")])) =
      some (PyVal.str "flood") := by
  have h := resolve_preserves_other_keys [("title", PyVal.str "flood")] emptyGazetteer
    (unresolvedRec (initRec [("title", PyVal.str "flood")])) rfl "title"
    (by decide) (by decide) (by decide) (by decide) (by decide)
  rw [h]; rfl

/- ---------- C4 ---------- -/

/-- C4 (amended): the text normalizer is total and pure on every null,
string, or falsy input: it produces a key and never raises, and empty,
null, or any other falsy input produces the empty key. (A truthy
non-string input instead raises TypeError; see the counterexample.) -/
theorem normalize_total_on_strings :
    (∀ v : PyVal, (v = PyVal.none ∨ (∃ s, v = PyVal.str s) ∨ pyTruthy v = false) →
      ∃ k, pyNormalizeVal v = Except.ok k) ∧
    pyNormalizeVal PyVal.none = Except.ok "" ∧
    pyNormalizeVal (PyVal.str "") = Except.ok "" := by
  refine ⟨?_, rfl, rfl⟩
  rintro v (rfl | ⟨s, rfl⟩ | hf)
  · exact ⟨"", rfl⟩
  · by_cases h : pyTruthy (PyVal.str s)
    · exact ⟨pyNormalize s, by simp [pyNormalizeVal, h]⟩
    · exact ⟨"", by simp [pyNormalizeVal, h]⟩
  · exact ⟨"", by simp [pyNormalizeVal, hf]⟩

/-- Witness for C4 on a concrete accented string input. -/
theorem normalize_total_on_strings_witness :
    ∃ k, pyNormalizeVal (PyVal.str "  Ciudad de MÉXICO ") = Except.ok k :=
  normalize_total_on_strings.1 _ (Or.inr (Or.inl ⟨_, rfl⟩))

/-- C4 counterexample: a truthy non-string input, here non-empty bytes,
makes the normalizer raise TypeError instead of producing a key, refuting
totality over every input. -/
theorem normalize_raises_on_bytes :
    pyNormalizeVal (PyVal.bytes [255]) = Except.error PyError.typeError := rfl

/- ---------- C5 ---------- -/

theorem bbox_centroid_nums (a b c d : ℚ) :
    bbox_centroid (PyVal.list [PyVal.num a, PyVal.num b, PyVal.num c, PyVal.num d]) =
      if -90 ≤ (b + d) / 2 ∧ (b + d) / 2 ≤ 90 ∧ -180 ≤ (a + c) / 2 ∧ (a + c) / 2 ≤ 180 then
        Except.ok (some ((b + d) / 2, (a + c) / 2))
      else Except.ok Option.none := by
  rfl

/-- C5: bbox_centroid on a list of exactly four numbers returns the
arithmetic midpoint, latitude from the second and fourth entries and
longitude from the first and third; it returns None exactly when the list
is malformed (wrong arity, or a member float() cannot convert) or the
midpoint is out of range; and with ordered bounds any returned point lies
inside the box and equals the midpoint. -/
theorem bbox_centroid_spec :
    (∀ a b c d : ℚ,
      (-90 ≤ (b + d) / 2 ∧ (b + d) / 2 ≤ 90 ∧ -180 ≤ (a + c) / 2 ∧ (a + c) / 2 ≤ 180) →
      bbox_centroid (PyVal.list [PyVal.num a, PyVal.num b, PyVal.num c, PyVal.num d]) =
        Except.ok (some ((b + d) / 2, (a + c) / 2))) ∧
    (∀ xs : List PyVal, xs.length ≠ 4 →
      bbox_centroid (PyVal.list xs) = Except.ok Option.none) ∧
    (∀ (xs : List PyVal) (e : PyError), xs.length = 4 → mapFloats xs = Except.error e →
      bbox_centroid (PyVal.list xs) = Except.ok Option.none) ∧
    (∀ a b c d : ℚ,
      ¬(-90 ≤ (b + d) / 2 ∧ (b + d) / 2 ≤ 90 ∧ -180 ≤ (a + c) / 2 ∧ (a + c) / 2 ≤ 180) →
      bbox_centroid (PyVal.list [PyVal.num a, PyVal.num b, PyVal.num c, PyVal.num d]) =
        Except.ok Option.none) ∧
    (∀ (xs : List PyVal) (a b c d : ℚ), mapFloats xs = Except.ok [a, b, c, d] →
      bbox_centroid (PyVal.list xs) = Except.ok Option.none → xs.length = 4 →
      ¬(-90 ≤ (b + d) / 2 ∧ (b + d) / 2 ≤ 90 ∧ -180 ≤ (a + c) / 2 ∧ (a + c) / 2 ≤ 180)) ∧
    (∀ a b c d la lo : ℚ, b ≤ d → a ≤ c →
      bbox_centroid (PyVal.list [PyVal.num a, PyVal.num b, PyVal.num c, PyVal.num d]) =
        Except.ok (some (la, lo)) →
      la = (b + d) / 2 ∧ lo = (a + c) / 2 ∧ b ≤ la ∧ la ≤ d ∧ a ≤ lo ∧ lo ≤ c) := by
  have hlen : ∀ xs : List PyVal, xs.length ≠ 4 →
      bbox_centroid (PyVal.list xs) = Except.ok Option.none := by
    intro xs h
    cases xs with
    | nil => rfl
    | cons y ys =>
      have h3 : ys.length ≠ 3 := by
        intro hh
        exact h (by simp [hh])
      simp [bbox_centroid, pyTruthy, pyLen, h, h3]
  refine ⟨?_, hlen, ?_, ?_, ?_, ?_⟩
  · intro a b c d h
    rw [bbox_centroid_nums, if_pos h]
  · intro xs e hlen4 hmap
    obtain ⟨y, ys, rfl⟩ : ∃ y ys, xs = y :: ys := by
      cases xs with
      | nil => simp at hlen4
      | cons y ys => exact ⟨y, ys, rfl⟩
    simp [bbox_centroid, pyTruthy, pyLen, pyElems, hlen4, hmap]
  · intro a b c d h
    rw [bbox_centroid_nums, if_neg h]
  · intro xs a b c d hmap hres hlen4 hbnd
    obtain ⟨y, ys, rfl⟩ : ∃ y ys, xs = y :: ys := by
      cases xs with
      | nil => simp at hlen4
      | cons y ys => exact ⟨y, ys, rfl⟩
    simp [bbox_centroid, pyTruthy, pyLen, pyElems, hlen4, hmap, hbnd] at hres
  · intro a b c d la lo hbd hac h
    rw [bbox_centroid_nums] at h
    split at h
    · rename_i hin
      obtain ⟨h1, h2⟩ := Prod.mk.injEq .. ▸ Option.some.inj (Except.ok.inj h)
      constructor
      · exact h1.symm
      constructor
      · exact h2.symm
      refine ⟨?_, ?_, ?_, ?_⟩ <;> rw [← h1, ← h2] at * <;> linarith
    · exact absurd h (by simp)

/-- Witness for C5: scenario B of the specification, box
[-10, 40, -8, 42], gives the in-box midpoint latitude 41, longitude -9. -/
theorem bbox_centroid_spec_witness :
    bbox_centroid (PyVal.list [PyVal.num (-10), PyVal.num 40, PyVal.num (-8), PyVal.num 42]) =
      Except.ok (some (41, -9)) := by
  have h := bbox_centroid_spec.1 (-10) 40 (-8) 42 (by norm_num)
  rw [h]
  norm_num

/- ---------- C6 ---------- -/

/-- C6: a record carrying numeric in-range lat and lon resolves through
tier 1 no matter what else is present: method provided_point, confidence 1,
and the very same coordinates. -/
theorem provided_point_wins (gaz : Gazetteer) (rec : Rec) (la lo : ℚ)
    (hla : Rec.get rec "lat" = PyVal.num la) (hlo : Rec.get rec "lon" = PyVal.num lo)
    (h1 : -90 ≤ la) (h2 : la ≤ 90) (h3 : -180 ≤ lo) (h4 : lo ≤ 180) :
    ∃ r, resolve_location rec gaz = Except.ok r ∧
      dlookup "loc_method" r = some (PyVal.str "provided_point") ∧
      dlookup "loc_confidence" r = some (PyVal.num 1) ∧
      dlookup "lat" r = some (PyVal.num la) ∧
      dlookup "lon" r = some (PyVal.num lo) := by
  have hga : Rec.get (initRec rec) "lat" = PyVal.num la := by
    rw [@get_initRec "lat" rec (by decide) (by decide) (by decide)]; exact hla
  have hgo : Rec.get (initRec rec) "lon" = PyVal.num lo := by
    rw [@get_initRec "lon" rec (by decide) (by decide) (by decide)]; exact hlo
  have ht1 : tier1 (initRec rec) =
      some (setResult (initRec rec) la lo "provided_point" 1
        "Coordinates provided in source data") := by
    unfold tier1
    rw [hga, hgo]
    simp [pyIsNone, pyFloat, h1, h2, h3, h4]
  refine ⟨setResult (initRec rec) la lo "provided_point" 1
      "Coordinates provided in source data", ?_, setResult_method _ _ _ _ _ _,
    setResult_conf _ _ _ _ _ _, setResult_lat _ _ _ _ _ _, setResult_lon _ _ _ _ _ _⟩
  unfold resolve_location
  simp only [ht1]

/-- Witness for C6: scenario A of the specification, coordinates 34.05 and
-118.24, with a valid bbox also present, still resolves through tier 1. -/
theorem provided_point_wins_witness :
    ∃ r, resolve_location
        [("lat", PyVal.num 34.05), ("lon", PyVal.num (-118.24)),
         ("bbox", PyVal.list [PyVal.num (-10), PyVal.num 40, PyVal.num (-8), PyVal.num 42])]
        emptyGazetteer = Except.ok r ∧
      dlookup "loc_method" r = some (PyVal.str "provided_point") ∧
      dlookup "loc_confidence" r = some (PyVal.num 1) ∧
      dlookup "lat" r = some (PyVal.num 34.05) ∧
      dlookup "lon" r = some (PyVal.num (-118.24)) :=
  provided_point_wins emptyGazetteer _ 34.05 (-118.24) rfl rfl
    (by norm_num) (by norm_num) (by norm_num) (by norm_num)

/- ---------- reaching the country tiers ---------- -/

/-- When tier 1 and tier 2 do not fire and the five text fields extract to
strings, resolution is decided by the country tiers on the stripped
values. -/
theorem resolve_reaches_country_tiers (rec : Rec) (gaz : Gazetteer)
    (scc scn sa1 scy spn : String)
    (hlat : Rec.get rec "lat" = PyVal.none)
    (hbbox : pyTruthy (Rec.get rec "bbox") = false)
    (hcc : Rec.getD rec "country_code" (PyVal.str "") = PyVal.str scc)
    (hcn : Rec.getD rec "country" (PyVal.str "") = PyVal.str scn)
    (ha1 : Rec.getD rec "admin1" (PyVal.str "") = PyVal.str sa1)
    (hcy : Rec.getD rec "city" (PyVal.str "") = PyVal.str scy)
    (hpn : Rec.getD rec "place_name" (PyVal.str "") = PyVal.str spn) :
    resolve_location rec gaz = Except.ok (tiers3to7 (initRec rec) gaz
      (pyUpper (pyStrip scc)) (pyStrip scn) (pyStrip sa1) (pyStrip scy) (pyStrip spn)) := by
  have h1 : tier1 (initRec rec) = Option.none := by
    unfold tier1
    rw [@get_initRec "lat" rec (by decide) (by decide) (by decide), hlat]
    simp [pyIsNone]
  have h2 : tier2 (initRec rec) = Except.ok Option.none := by
    unfold tier2
    rw [@get_initRec "bbox" rec (by decide) (by decide) (by decide), hbbox]
    simp
  have e1 : pyStripVal ((initRec rec).getD "country_code" (PyVal.str "")) =
      Except.ok (pyStrip scc) := by
    rw [@getD_initRec "country_code" rec _ (by decide) (by decide) (by decide), hcc]
    rfl
  have e2 : pyStripVal ((initRec rec).getD "country" (PyVal.str "")) =
      Except.ok (pyStrip scn) := by
    rw [@getD_initRec "country" rec _ (by decide) (by decide) (by decide), hcn]
    rfl
  have e3 : pyStripVal ((initRec rec).getD "admin1" (PyVal.str "")) =
      Except.ok (pyStrip sa1) := by
    rw [@getD_initRec "admin1" rec _ (by decide) (by decide) (by decide), ha1]
    rfl
  have e4 : pyStripVal ((initRec rec).getD "city" (PyVal.str "")) =
      Except.ok (pyStrip scy) := by
    rw [@getD_initRec "city" rec _ (by decide) (by decide) (by decide), hcy]
    rfl
  have e5 : pyStripVal ((initRec rec).getD "place_name" (PyVal.str "")) =
      Except.ok (pyStrip spn) := by
    rw [@getD_initRec "place_name" rec _ (by decide) (by decide) (by decide), hpn]
    rfl
  unfold resolve_location
  simp only [h1, h2, e1, e2, e3, e4, e5]

/- ---------- C7 ---------- -/

/-- C7: country resolution is computed once from the code and name fields,
preferring an explicit code; when it fails, tiers 3 to 6 are skipped and
the chain lands on the unresolved terminal, and in particular a record
whose only field is an unknown country name yields method None with
confidence 0. -/
theorem country_resolution_gate :
    (∀ (gaz : Gazetteer) (cc cn : String) (c : CountryEntry), cc ≠ "" →
      gaz.find_country cc = some c → resolveCountryData gaz cc cn = some c) ∧
    (∀ (res : Rec) (gaz : Gazetteer) (cc cn a1 cy pn : String),
      resolveCountryData gaz cc cn = Option.none →
      tiers3to7 res gaz cc cn a1 cy pn = unresolvedRec res) ∧
    (∀ (gaz : Gazetteer) (name : String),
      gaz.find_country (pyStrip name) = Option.none →
      ∃ r, resolve_location [("country", PyVal.str name)] gaz = Except.ok r ∧
        dlookup "loc_method" r = some PyVal.none ∧
        dlookup "loc_confidence" r = some (PyVal.num 0)) := by
  refine ⟨?_, ?_, ?_⟩
  · intro gaz cc cn c hne hfind
    simp [resolveCountryData, hne, hfind]
  · intro res gaz cc cn a1 cy pn h
    simp [tiers3to7, h]
  · intro gaz name hfind
    have hres := resolve_reaches_country_tiers [("country", PyVal.str name)] gaz
      "" name "" "" "" rfl rfl rfl rfl rfl rfl rfl
    have hupper : pyUpper (pyStrip "") = "" := rfl
    have hcd : resolveCountryData gaz (pyUpper (pyStrip "")) (pyStrip name) = Option.none := by
      rw [hupper]
      by_cases hn : pyStrip name = "" <;> simp [resolveCountryData, hn, hfind]
    have hti : tiers3to7 (initRec [("country", PyVal.str name)]) gaz
        (pyUpper (pyStrip "")) (pyStrip name) (pyStrip "") (pyStrip "") (pyStrip "") =
        unresolvedRec (initRec [("country", PyVal.str name)]) := by
      simp [tiers3to7, hcd]
    refine ⟨_, hres, ?_, ?_⟩
    · rw [hti]; exact unresolved_method _
    · rw [hti]; exact unresolved_conf _

/-- Witness for C7: scenario D, the unknown country name Ruritania against
the empty gazetteer gives method None and confidence 0. -/
theorem country_resolution_gate_witness :
    ∃ r, resolve_location [("country", PyVal.str "Ruritania")] emptyGazetteer = Except.ok r ∧
      dlookup "loc_method" r = some PyVal.none ∧
      dlookup "loc_confidence" r = some (PyVal.num 0) :=
  country_resolution_gate.2.2 emptyGazetteer "Ruritania" rfl

/- ---------- C8 ---------- -/

/-- C8: when the structured city tier succeeds, the confidence is exactly
0.75, plus 0.05 when an admin name was supplied in the signal, plus 0.05
when the matched population exceeds one million, capped at 1. -/
theorem city_geocode_confidence (gaz : Gazetteer) (rec : Rec)
    (scc scn sa1 scy spn : String) (c : CountryEntry) (cityd : CityEntry)
    (hlat : Rec.get rec "lat" = PyVal.none)
    (hbbox : pyTruthy (Rec.get rec "bbox") = false)
    (hcc : Rec.getD rec "country_code" (PyVal.str "") = PyVal.str scc)
    (hcn : Rec.getD rec "country" (PyVal.str "") = PyVal.str scn)
    (ha1 : Rec.getD rec "admin1" (PyVal.str "") = PyVal.str sa1)
    (hcy : Rec.getD rec "city" (PyVal.str "") = PyVal.str scy)
    (hpn : Rec.getD rec "place_name" (PyVal.str "") = PyVal.str spn)
    (hcountry : resolveCountryData gaz (pyUpper (pyStrip scc)) (pyStrip scn) = some c)
    (hcityname : pyStrip scy ≠ "")
    (hfind : gaz.find_city c.iso2 (pyStrip sa1) (pyStrip scy) = some cityd) :
    ∃ r, resolve_location rec gaz = Except.ok r ∧
      dlookup "loc_method" r = some (PyVal.str "city_geocode") ∧
      dlookup "loc_confidence" r = some (PyVal.num (min (0.75 +
        (if pyStrip sa1 ≠ "" then (0.05 : ℚ) else 0) +
        (if cityd.pop > 1000000 then (0.05 : ℚ) else 0)) 1)) := by
  have hres := resolve_reaches_country_tiers rec gaz scc scn sa1 scy spn
    hlat hbbox hcc hcn ha1 hcy hpn
  have ht3 : tier3 (initRec rec) gaz c (pyStrip sa1) (pyStrip scy) =
      some (setResult (initRec rec) cityd.lat cityd.lon "city_geocode"
        (min (cityConfidence (pyStrip sa1) cityd) 1)
        ("City: " ++ cityd.name ++ ", " ++ c.name)) := by
    simp [tier3, hcityname, hfind]
  have hti : tiers3to7 (initRec rec) gaz (pyUpper (pyStrip scc)) (pyStrip scn)
      (pyStrip sa1) (pyStrip scy) (pyStrip spn) =
      setResult (initRec rec) cityd.lat cityd.lon "city_geocode"
        (min (cityConfidence (pyStrip sa1) cityd) 1)
        ("City: " ++ cityd.name ++ ", " ++ c.name) := by
    simp [tiers3to7, hcountry, ht3]
  refine ⟨_, by rw [hres, hti], ?_, ?_⟩
  · exact setResult_method _ _ _ _ _ _
  · rw [setResult_conf, cityConfidence_eq]

/-- Witness for C8: scenario C, country USA and city Los Angeles against a
gazetteer whose Los Angeles has population above one million and no admin
name supplied, gives city_geocode with confidence 0.8. -/
theorem city_geocode_confidence_witness :
    ∃ r, resolve_location [("country", PyVal.str "USA"), ("city", PyVal.str "Los Angeles")]
        gazLA = Except.ok r ∧
      dlookup "loc_method" r = some (PyVal.str "city_geocode") ∧
      dlookup "loc_confidence" r = some (PyVal.num 0.8) := by
  obtain ⟨r, hr, hm, hc⟩ := city_geocode_confidence gazLA
    [("country", PyVal.str "USA"), ("city", PyVal.str "Los Angeles")]
    "" "USA" "" "Los Angeles" "" usEntry laEntry
    rfl rfl rfl rfl rfl rfl rfl rfl (by decide) rfl
  refine ⟨r, hr, hm, ?_⟩
  rw [hc]
  have h1 : pyStrip "" ≠ "" ↔ False := by simp [pyStrip, stripChars]
  have h2 : laEntry.pop > 1000000 := by norm_num [laEntry]
  rw [if_neg (by simp [pyStrip, stripChars]), if_pos h2]
  norm_num

/- ---------- C2 ---------- -/

theorem bbox_centroid_ok_of_len (v : PyVal) (n : ℕ) (hn : pyLen v = Except.ok n) :
    ∃ o, bbox_centroid v = Except.ok o := by
  by_cases ht : pyTruthy v
  · unfold bbox_centroid
    simp only [ht, hn, Bool.not_true, Bool.false_eq_true, if_false]
    by_cases h4 : n ≠ 4
    · exact ⟨Option.none, by simp [h4]⟩
    · simp only [h4, if_false]
      rcases hm : mapFloats (pyElems v) with e | qs
      · exact ⟨Option.none, rfl⟩
      · rcases qs with _ | ⟨a, _ | ⟨b, _ | ⟨cq, _ | ⟨d, _ | ⟨x, t⟩⟩⟩⟩⟩
        · exact ⟨Option.none, rfl⟩
        · exact ⟨Option.none, rfl⟩
        · exact ⟨Option.none, rfl⟩
        · exact ⟨Option.none, rfl⟩
        · by_cases hb : -90 ≤ (b + d) / 2 ∧ (b + d) / 2 ≤ 90 ∧
              -180 ≤ (a + cq) / 2 ∧ (a + cq) / 2 ≤ 180
          · exact ⟨some ((b + d) / 2, (a + cq) / 2), by simp [hb]⟩
          · exact ⟨Option.none, by simp [hb]⟩
        · exact ⟨Option.none, rfl⟩
  · exact ⟨Option.none, by simp [bbox_centroid, ht]⟩

theorem tier2_ok_of_bbox_shape (res : Rec)
    (hbbox : pyTruthy (res.get "bbox") = true →
      (∃ s, res.get "bbox" = PyVal.str s) ∨ (∃ xs, res.get "bbox" = PyVal.list xs) ∨
      (∃ bs, res.get "bbox" = PyVal.bytes bs)) :
    ∃ o, tier2 res = Except.ok o := by
  by_cases ht : pyTruthy (res.get "bbox")
  · have hlen : ∃ n, pyLen (res.get "bbox") = Except.ok n := by
      rcases hbbox ht with ⟨s, hs⟩ | ⟨xs, hs⟩ | ⟨bs, hs⟩ <;> rw [hs] <;> exact ⟨_, rfl⟩
    obtain ⟨n, hn⟩ := hlen
    obtain ⟨o, ho⟩ := bbox_centroid_ok_of_len _ n hn
    rcases o with _ | ⟨la, lo⟩
    · exact ⟨Option.none, by simp [tier2, ht, ho]⟩
    · exact ⟨some (setResult res la lo "bbox_centroid" 0.8 "Centroid of bounding box"),
        by simp [tier2, ht, ho]⟩
  · exact ⟨Option.none, by simp [tier2, ht]⟩

theorem strip_ok_of_str (rec : Rec) (k : String)
    (hk1 : k ≠ "loc_method") (hk2 : k ≠ "loc_confidence") (hk3 : k ≠ "loc_notes")
    (hkv : ∀ v, dlookup k rec = some v → ∃ s, v = PyVal.str s) :
    ∃ s, pyStripVal ((initRec rec).getD k (PyVal.str "")) = Except.ok s := by
  rw [@getD_initRec k rec _ hk1 hk2 hk3]
  cases hv : dlookup k rec with
  | none => exact ⟨pyStrip "", by simp [Rec.getD, hv, pyStripVal]⟩
  | some v =>
    obtain ⟨s, rfl⟩ := hkv v hv
    exact ⟨pyStrip s, by simp [Rec.getD, hv, pyStripVal]⟩

/-- C2 (amended): for every record whose five text fields, when present,
are strings, and whose bbox, when present, is either falsy or a sized
value (string, list or bytes), resolve_location never raises: each
malformed field is absorbed and the chain terminates, at worst in the
unresolved state. (A present non-string text field raises AttributeError
and a truthy unsized bbox raises TypeError; see the counterexample.) -/
theorem resolver_absorbs_malformed_fields (rec : Rec) (gaz : Gazetteer)
    (htext : ∀ k, k ∈ ["country_code", "country", "admin1", "city", "place_name"] →
      ∀ v, dlookup k rec = some v → ∃ s, v = PyVal.str s)
    (hbbox : pyTruthy (Rec.get rec "bbox") = true →
      (∃ s, Rec.get rec "bbox" = PyVal.str s) ∨ (∃ xs, Rec.get rec "bbox" = PyVal.list xs) ∨
      (∃ bs, Rec.get rec "bbox" = PyVal.bytes bs)) :
    ∃ r, resolve_location rec gaz = Except.ok r := by
  unfold resolve_location
  cases h1 : tier1 (initRec rec) with
  | some r => exact ⟨r, by simp [h1]⟩
  | none =>
    have hbbox2 : pyTruthy ((initRec rec).get "bbox") = true →
        (∃ s, (initRec rec).get "bbox" = PyVal.str s) ∨
        (∃ xs, (initRec rec).get "bbox" = PyVal.list xs) ∨
        (∃ bs, (initRec rec).get "bbox" = PyVal.bytes bs) := by
      rw [@get_initRec "bbox" rec (by decide) (by decide) (by decide)]
      exact hbbox
    obtain ⟨o, h2⟩ := tier2_ok_of_bbox_shape (initRec rec) hbbox2
    cases o with
    | some r => exact ⟨r, by simp [h1, h2]⟩
    | none =>
      obtain ⟨s1, e1⟩ := strip_ok_of_str rec "country_code" (by decide) (by decide) (by decide)
        (htext _ (by decide))
      obtain ⟨s2, e2⟩ := strip_ok_of_str rec "country" (by decide) (by decide) (by decide)
        (htext _ (by decide))
      obtain ⟨s3, e3⟩ := strip_ok_of_str rec "admin1" (by decide) (by decide) (by decide)
        (htext _ (by decide))
      obtain ⟨s4, e4⟩ := strip_ok_of_str rec "city" (by decide) (by decide) (by decide)
        (htext _ (by decide))
      obtain ⟨s5, e5⟩ := strip_ok_of_str rec "place_name" (by decide) (by decide) (by decide)
        (htext _ (by decide))
      exact ⟨tiers3to7 (initRec rec) gaz (pyUpper s1) s2 s3 s4 s5,
        by simp [h1, h2, e1, e2, e3, e4, e5]⟩

/-- Witness for C2: a record whose lat, bbox, and text fields are all
malformed strings still resolves without an error. -/
theorem resolver_absorbs_malformed_fields_witness :
    ∃ r, resolve_location
        [("lat", PyVal.str "oops"), ("bbox", PyVal.str "bad"),
         ("country_code", PyVal.str " zz "), ("country", PyVal.str "Nowhere"),
         ("admin1", PyVal.str ""), ("city", PyVal.str "Atlantis"),
         ("place_name", PyVal.str "a,b")] emptyGazetteer = Except.ok r := by
  apply resolver_absorbs_malformed_fields
  · intro k hk v hv
    fin_cases hk <;> simp [dlookup] at hv <;> exact ⟨_, hv.symm⟩
  · intro ht
    exact Or.inl ⟨"bad", rfl⟩

/-- C2 counterexample: a record whose country_code field holds a number
makes resolve_location raise AttributeError at the strip() call, refuting
the claim for non-string field values. -/
theorem resolver_raises_on_nonstring_field :
    resolve_location [("country_code", PyVal.num 5)] emptyGazetteer =
      Except.error PyError.attributeError := rfl

/- ---------- C3 ---------- -/

theorem loadCountryRow_fields {g g1 : Gazetteer} {row : Row}
    (h : loadCountryRow g row = Except.ok g1) :
    g1.cities_by_key = g.cities_by_key ∧ g1.admin1_by_key = g.admin1_by_key := by
  simp only [loadCountryRow, bind, Except.bind, pure, Except.pure] at h
  repeat' split at h
  all_goals try exact Except.noConfusion h
  obtain rfl := Except.ok.inj h
  exact ⟨rfl, rfl⟩

theorem loadAdmin1Row_fields {g g1 : Gazetteer} {row : Row}
    (h : loadAdmin1Row g row = Except.ok g1) :
    g1.cities_by_key = g.cities_by_key ∧ g1.country_by_iso2 = g.country_by_iso2 ∧
      g1.country_by_iso3 = g.country_by_iso3 ∧ g1.country_by_name = g.country_by_name := by
  simp only [loadAdmin1Row, bind, Except.bind, pure, Except.pure] at h
  repeat' split at h
  all_goals try exact Except.noConfusion h
  obtain rfl := Except.ok.inj h
  exact ⟨rfl, rfl, rfl, rfl⟩

theorem foldl_countries_fields : ∀ (rows : List Row) (g g' : Gazetteer),
    rows.foldlM loadCountryRow g = Except.ok g' →
    g'.cities_by_key = g.cities_by_key ∧ g'.admin1_by_key = g.admin1_by_key := by
  intro rows
  induction rows with
  | nil =>
    intro g g' h
    simp only [List.foldlM_nil, pure, Except.pure] at h
    obtain rfl := Except.ok.inj h
    exact ⟨rfl, rfl⟩
  | cons row rows ih =>
    intro g g' h
    simp only [List.foldlM_cons, bind, Except.bind] at h
    cases hx : loadCountryRow g row with
    | error e => rw [hx] at h; exact absurd h (by simp)
    | ok g1 =>
      rw [hx] at h
      obtain ⟨hc, ha⟩ := loadCountryRow_fields hx
      obtain ⟨hc2, ha2⟩ := ih g1 g' h
      exact ⟨hc2.trans hc, ha2.trans ha⟩

theorem foldl_admin1_fields : ∀ (rows : List Row) (g g' : Gazetteer),
    rows.foldlM loadAdmin1Row g = Except.ok g' →
    g'.cities_by_key = g.cities_by_key ∧ g'.country_by_iso2 = g.country_by_iso2 ∧
      g'.country_by_iso3 = g.country_by_iso3 ∧ g'.country_by_name = g.country_by_name := by
  intro rows
  induction rows with
  | nil =>
    intro g g' h
    simp only [List.foldlM_nil, pure, Except.pure] at h
    obtain rfl := Except.ok.inj h
    exact ⟨rfl, rfl, rfl, rfl⟩
  | cons row rows ih =>
    intro g g' h
    simp only [List.foldlM_cons, bind, Except.bind] at h
    cases hx : loadAdmin1Row g row with
    | error e => rw [hx] at h; exact absurd h (by simp)
    | ok g1 =>
      rw [hx] at h
      obtain ⟨hc, h2, h3, h4⟩ := loadAdmin1Row_fields hx
      obtain ⟨hc2, h22, h32, h42⟩ := ih g1 g' h
      exact ⟨hc2.trans hc, h22.trans h2, h32.trans h3, h42.trans h4⟩

theorem load_countries_fields {f : Option (List Row)} {g g' : Gazetteer}
    (h : load_countries f g = Except.ok g') :
    g'.cities_by_key = g.cities_by_key ∧ g'.admin1_by_key = g.admin1_by_key := by
  cases f with
  | none =>
    obtain rfl := Except.ok.inj h
    exact ⟨rfl, rfl⟩
  | some rows => exact foldl_countries_fields rows g g' h

theorem load_admin1_fields {f : Option (List Row)} {g g' : Gazetteer}
    (h : load_admin1 f g = Except.ok g') :
    g'.cities_by_key = g.cities_by_key ∧ g'.country_by_iso2 = g.country_by_iso2 ∧
      g'.country_by_iso3 = g.country_by_iso3 ∧ g'.country_by_name = g.country_by_name := by
  cases f with
  | none =>
    obtain rfl := Except.ok.inj h
    exact ⟨rfl, rfl, rfl, rfl⟩
  | some rows => exact foldl_admin1_fields rows g g' h

theorem load_cities_fields {f : Option (List Row)} {g g' : Gazetteer}
    (h : load_cities f g = Except.ok g') :
    g'.country_by_iso2 = g.country_by_iso2 ∧ g'.country_by_iso3 = g.country_by_iso3 ∧
      g'.country_by_name = g.country_by_name ∧ g'.admin1_by_key = g.admin1_by_key := by
  cases f with
  | none =>
    obtain rfl := Except.ok.inj h
    exact ⟨rfl, rfl, rfl, rfl⟩
  | some rows =>
    simp only [load_cities, bind, Except.bind, pure, Except.pure] at h
    cases hm : rows.foldlM loadCityRow g.cities_by_key with
    | error e => simp [hm] at h
    | ok m =>
      simp only [hm] at h
      obtain rfl := Except.ok.inj h
      exact ⟨rfl, rfl, rfl, rfl⟩

theorem load_cities_none {g : Gazetteer} : load_cities Option.none g = Except.ok g := rfl

theorem build_aliases_fields (g : Gazetteer) :
    (build_aliases g).cities_by_key = g.cities_by_key ∧
      (build_aliases g).admin1_by_key = g.admin1_by_key ∧
      (build_aliases g).country_by_iso2 = g.country_by_iso2 ∧
      (build_aliases g).country_by_iso3 = g.country_by_iso3 := by
  unfold build_aliases
  generalize aliasTable = l
  induction l generalizing g with
  | nil => exact ⟨rfl, rfl, rfl, rfl⟩
  | cons p t ih =>
    simp only [List.foldl_cons]
    rcases hd : dlookup p.2 g.country_by_iso2 with _ | entry
    · simpa [hd] using ih g
    · by_cases hn : (dlookup (pyNormalize p.1) g.country_by_name).isNone
      · simpa [hd, hn] using
          ih { g with country_by_name := (pyNormalize p.1, entry) :: g.country_by_name }
      · simpa [hd, hn] using ih g

theorem build_aliases_of_no_iso2 {g : Gazetteer} (h : g.country_by_iso2 = []) :
    build_aliases g = g := by
  simp [build_aliases, aliasTable, h, dlookup]

theorem find_country_empty {g : Gazetteer} (h2 : g.country_by_iso2 = [])
    (h3 : g.country_by_iso3 = []) (hn : g.country_by_name = []) (q : String) :
    g.find_country q = Option.none := by
  unfold Gazetteer.find_country
  rw [h2, h3, hn]
  simp [dlookup]

theorem find_city_empty {g : Gazetteer} (h : g.cities_by_key = [])
    (cc a1 cy : String) : g.find_city cc a1 cy = Option.none := by
  unfold Gazetteer.find_city
  rw [h]
  by_cases hcc : cc = "" ∨ cy = ""
  · simp [hcc]
  · simp only [hcc, if_false]
    by_cases ha : a1 ≠ "" <;> simp [ha, dlookup]

/-- C3 (amended): a missing reference table file degrades that table to
always-miss lookups without aborting construction; but an individual row
with an unparsable numeric field is not skipped: it raises an uncaught
ValueError that aborts the table load, with no warning recorded. -/
theorem gazetteer_missing_file_degrades :
    (∀ (a1f cf : Option (List Row)) (g : Gazetteer),
      Gazetteer.build Option.none a1f cf = Except.ok g →
      ∀ q, g.find_country q = Option.none) ∧
    (∀ (cof a1f : Option (List Row)) (g : Gazetteer),
      Gazetteer.build cof a1f Option.none = Except.ok g →
      ∀ cc a1 cy, g.find_city cc a1 cy = Option.none) ∧
    (∀ (g : Gazetteer) (iso2v iso3v namev latv lonv : String),
      parseFloatChars latv.data = Option.none →
      load_countries (some [[("iso2", iso2v), ("iso3", iso3v), ("name", namev),
        ("lat", latv), ("lon", lonv)]]) g = Except.error PyError.valueError) := by
  refine ⟨?_, ?_, ?_⟩
  · intro a1f cf g h
    unfold Gazetteer.build at h
    simp only [bind, Except.bind, load_countries] at h
    cases ha : load_admin1 a1f emptyGazetteer with
    | error e => simp [ha] at h
    | ok g2 =>
      simp only [ha] at h
      cases hc : load_cities cf g2 with
      | error e => simp [hc] at h
      | ok g3 =>
        simp only [hc, pure, Except.pure] at h
        obtain rfl := Except.ok.inj h
        obtain ⟨-, ha2, ha3, ha4⟩ := load_admin1_fields ha
        obtain ⟨hc2, hc3, hc4, -⟩ := load_cities_fields hc
        have e2 : g3.country_by_iso2 = [] := by rw [hc2, ha2]; rfl
        have e3 : g3.country_by_iso3 = [] := by rw [hc3, ha3]; rfl
        have e4 : g3.country_by_name = [] := by rw [hc4, ha4]; rfl
        rw [build_aliases_of_no_iso2 e2]
        exact find_country_empty e2 e3 e4
  · intro cof a1f g h
    unfold Gazetteer.build at h
    simp only [bind, Except.bind] at h
    cases hco : load_countries cof emptyGazetteer with
    | error e => simp [hco] at h
    | ok g1 =>
      simp only [hco] at h
      cases ha : load_admin1 a1f g1 with
      | error e => simp [ha] at h
      | ok g2 =>
        simp only [ha, load_cities_none, pure, Except.pure] at h
        obtain rfl := Except.ok.inj h
        obtain ⟨hcc, -⟩ := load_countries_fields hco
        obtain ⟨hca, -, -, -⟩ := load_admin1_fields ha
        have e1 : g2.cities_by_key = [] := by rw [hca, hcc]; rfl
        have e0 : (build_aliases g2).cities_by_key = [] := by
          rw [(build_aliases_fields g2).1, e1]
        exact find_city_empty e0
  · intro g iso2v iso3v namev latv lonv hbad
    simp [load_countries, loadCountryRow, rowGet, dlookup, pyFloatStr, hbad,
      bind, Except.bind, List.foldlM]

/-- Witness for C3: the gazetteer built from three missing files misses
every country lookup. -/
theorem gazetteer_missing_file_degrades_witness :
    emptyGazetteer.find_country "France" = Option.none :=
  gazetteer_missing_file_degrades.1 Option.none Option.none emptyGazetteer rfl "France"

/-- C3 counterexample: one country row whose lat cell is not numeric makes
the whole construction fail with ValueError instead of skipping the row,
refuting the never-fails half of the claim. -/
theorem gazetteer_malformed_row_aborts_build :
    Gazetteer.build (some [[("iso2", "US"), ("iso3", "USA"), ("name", "United States"),
      ("lat", "abc"), ("lon", "0")]]) Option.none Option.none =
      Except.error PyError.valueError := rfl

/- ---------- C9 ---------- -/

theorem mem_collapseWsAux {c : Char} :
    ∀ (b : Bool) (l : List Char), c ∈ collapseWsAux b l → c ∈ l ∨ c = ' ' := by
  intro b l
  induction l generalizing b with
  | nil => intro h; simp [collapseWsAux] at h
  | cons x t ih =>
    intro h
    unfold collapseWsAux at h
    by_cases hx : pyIsSpace x
    · rw [if_pos hx] at h
      cases b with
      | true =>
        rcases ih true h with h2 | h2
        · exact Or.inl (List.mem_cons_of_mem x h2)
        · exact Or.inr h2
      | false =>
        rw [if_neg Bool.false_ne_true] at h
        rcases List.mem_cons.mp h with rfl | h2
        · exact Or.inr rfl
        · rcases ih true h2 with h3 | h3
          · exact Or.inl (List.mem_cons_of_mem x h3)
          · exact Or.inr h3
    · rw [if_neg hx] at h
      rcases List.mem_cons.mp h with rfl | h2
      · exact Or.inl (List.mem_cons_self c t)
      · rcases ih false h2 with h3 | h3
        · exact Or.inl (List.mem_cons_of_mem x h3)
        · exact Or.inr h3

theorem normalize_no_colon (s : String) : ':' ∉ (pyNormalize s).data := by
  unfold pyNormalize
  by_cases h : s == ""
  · simp [h]
  · simp only [h, Bool.false_eq_true, if_false]
    intro hmem
    rcases mem_collapseWsAux false _ hmem with h2 | h2
    · have := List.of_mem_filter h2
      simp [isKeepChar, isWordChar, pyIsSpace, Char.isAlphanum, Char.isAlpha,
        Char.isDigit, Char.isUpper, Char.isLower] at this
    · simp at h2

theorem numColons_append (a b : String) : numColons (a ++ b) = numColons a + numColons b := by
  have hd : (a ++ b).data = a.data ++ b.data := rfl
  simp [numColons, hd, List.count_append]

theorem numColons_normalize (s : String) : numColons (pyNormalize s) = 0 := by
  simp [numColons, List.count_eq_zero]
  exact normalize_no_colon s

theorem numColons_doubleKey {e : CityEntry} (h : numColons e.country_iso2 = 0) :
    numColons (cityDoubleKey e) = 1 := by
  simp [cityDoubleKey, numColons_append, h, numColons_normalize]
  rfl

theorem numColons_tripleKey {e : CityEntry} (h : numColons e.country_iso2 = 0) :
    numColons (cityTripleKey e) = 2 := by
  simp [cityTripleKey, numColons_append, h, numColons_normalize]
  rfl

theorem tripleKey_ne_of_one {e : CityEntry} {k : String}
    (hcf : numColons e.country_iso2 = 0) (hk : numColons k = 1) : k ≠ cityTripleKey e := by
  intro heq
  rw [heq, numColons_tripleKey hcf] at hk
  exact absurd hk (by norm_num)

theorem dlookup_cons_isSome {α : Type} {k : String} {m : List (String × α)} (p : String × α)
    (h : (dlookup k m).isSome = true) : (dlookup k (p :: m)).isSome = true := by
  rcases p with ⟨k2, v⟩
  by_cases hk : k = k2
  · simp [dlookup, hk]
  · simpa [dlookup, hk] using h

theorem insertCityEntry_lookup_other {m : List (String × CityEntry)} {e : CityEntry} {k : String}
    (hcf : numColons e.country_iso2 = 0) (hk : numColons k = 1) (hne : k ≠ cityDoubleKey e) :
    dlookup k (insertCityEntry m e) = dlookup k m := by
  have htk := tripleKey_ne_of_one hcf hk
  rcases hd : dlookup (cityDoubleKey e) ((cityTripleKey e, e) :: m) with _ | old
  · simp only [insertCityEntry, hd]
    rw [dlookup_cons_ne hne, dlookup_cons_ne htk]
  · by_cases hp : e.pop > old.pop
    · simp only [insertCityEntry, hd, hp, if_true]
      rw [dlookup_cons_ne hne, dlookup_cons_ne htk]
    · simp only [insertCityEntry, hd, hp, if_false]
      rw [dlookup_cons_ne htk]

theorem insertCityEntry_lookup_self {m : List (String × CityEntry)} {e : CityEntry}
    (hcf : numColons e.country_iso2 = 0) :
    (dlookup (cityDoubleKey e) m = Option.none →
      dlookup (cityDoubleKey e) (insertCityEntry m e) = some e) ∧
    (∀ old, dlookup (cityDoubleKey e) m = some old →
      dlookup (cityDoubleKey e) (insertCityEntry m e) =
        some (if e.pop > old.pop then e else old)) := by
  have htk := tripleKey_ne_of_one hcf (numColons_doubleKey hcf)
  have hpass : dlookup (cityDoubleKey e) ((cityTripleKey e, e) :: m) =
      dlookup (cityDoubleKey e) m := dlookup_cons_ne htk _ _
  constructor
  · intro hnone
    have hd : dlookup (cityDoubleKey e) ((cityTripleKey e, e) :: m) = Option.none :=
      hpass.trans hnone
    simp only [insertCityEntry, hd]
    exact dlookup_cons_self _ _ _
  · intro old hold
    have hd : dlookup (cityDoubleKey e) ((cityTripleKey e, e) :: m) = some old :=
      hpass.trans hold
    by_cases hp : e.pop > old.pop
    · simp only [insertCityEntry, hd, hp, if_true]
      exact dlookup_cons_self _ _ _
    · simp only [insertCityEntry, hd, hp, if_false]

theorem insertCityEntry_isSome_mono {m : List (String × CityEntry)} {e : CityEntry} {k : String}
    (h : (dlookup k m).isSome = true) : (dlookup k (insertCityEntry m e)).isSome = true := by
  rcases hd : dlookup (cityDoubleKey e) ((cityTripleKey e, e) :: m) with _ | old
  · simp only [insertCityEntry, hd]
    exact dlookup_cons_isSome _ (dlookup_cons_isSome _ h)
  · by_cases hp : e.pop > old.pop
    · simp only [insertCityEntry, hd, hp, if_true]
      exact dlookup_cons_isSome _ (dlookup_cons_isSome _ h)
    · simp only [insertCityEntry, hd, hp, if_false]
      exact dlookup_cons_isSome _ h

theorem insert_fold_invariant :
    ∀ (es done : List CityEntry) (m : List (String × CityEntry)),
    (∀ e ∈ done, numColons e.country_iso2 = 0) →
    (∀ e ∈ es, numColons e.country_iso2 = 0) →
    (∀ k e, dlookup k m = some e → numColons k = 1 →
      e ∈ done ∧ cityDoubleKey e = k ∧ ∀ e2 ∈ done, cityDoubleKey e2 = k → e2.pop ≤ e.pop) →
    (∀ e ∈ done, (dlookup (cityDoubleKey e) m).isSome = true) →
    (∀ k e, dlookup k (es.foldl insertCityEntry m) = some e → numColons k = 1 →
      e ∈ done ++ es ∧ cityDoubleKey e = k ∧
        ∀ e2 ∈ done ++ es, cityDoubleKey e2 = k → e2.pop ≤ e.pop) ∧
    (∀ e ∈ done ++ es, (dlookup (cityDoubleKey e) (es.foldl insertCityEntry m)).isSome = true) := by
  intro es
  induction es with
  | nil =>
    intro done m hcf1 hcf2 hA hB
    simpa using ⟨hA, hB⟩
  | cons e t ih =>
    intro done m hcf1 hcf2 hA hB
    have hecf : numColons e.country_iso2 = 0 := hcf2 e (by simp)
    have hcf1a : ∀ x ∈ done ++ [e], numColons x.country_iso2 = 0 := by
      intro x hx
      rcases List.mem_append.mp hx with hx | hx
      · exact hcf1 x hx
      · simp at hx; subst hx; exact hecf
    have hA2 : ∀ k e2, dlookup k (insertCityEntry m e) = some e2 → numColons k = 1 →
        e2 ∈ done ++ [e] ∧ cityDoubleKey e2 = k ∧
          ∀ e3 ∈ done ++ [e], cityDoubleKey e3 = k → e3.pop ≤ e2.pop := by
      intro k e2 hk hk1
      by_cases hne : k = cityDoubleKey e
      · subst hne
        rcases hold : dlookup (cityDoubleKey e) m with _ | old
        · rw [(insertCityEntry_lookup_self hecf).1 hold] at hk
          obtain rfl := Option.some.inj hk
          refine ⟨by simp, by trivial, ?_⟩
          intro e3 he3 hk3
          rcases List.mem_append.mp he3 with h3 | h3
          · have := hB e3 h3
            rw [hk3, hold] at this
            simp at this
          · simp at h3; subst h3; exact le_refl _
        · rw [(insertCityEntry_lookup_self hecf).2 old hold] at hk
          obtain rfl := Option.some.inj hk
          obtain ⟨ho1, ho2, ho3⟩ := hA _ old hold (numColons_doubleKey hecf)
          by_cases hp : e.pop > old.pop
          · simp only [hp, if_true]
            refine ⟨by simp, by trivial, ?_⟩
            intro e3 he3 hk3
            rcases List.mem_append.mp he3 with h3 | h3
            · exact le_of_lt (lt_of_le_of_lt (ho3 e3 h3 hk3) hp)
            · simp at h3; subst h3; exact le_refl _
          · simp only [hp, if_false]
            refine ⟨by simp [ho1], by simp [ho2], ?_⟩
            intro e3 he3 hk3
            rcases List.mem_append.mp he3 with h3 | h3
            · exact ho3 e3 h3 hk3
            · simp at h3; subst h3; exact le_of_not_lt hp
      · rw [insertCityEntry_lookup_other hecf hk1 hne] at hk
        obtain ⟨h1, h2, h3⟩ := hA k e2 hk hk1
        refine ⟨by simp [h1], h2, ?_⟩
        intro e3 he3 hk3
        rcases List.mem_append.mp he3 with hm3 | hm3
        · exact h3 e3 hm3 hk3
        · simp at hm3; subst hm3
          exact absurd hk3.symm hne
    have hB2 : ∀ e2 ∈ done ++ [e],
        (dlookup (cityDoubleKey e2) (insertCityEntry m e)).isSome = true := by
      intro e2 he2
      rcases List.mem_append.mp he2 with h2 | h2
      · exact insertCityEntry_isSome_mono (hB e2 h2)
      · simp at h2; subst h2
        rcases hold : dlookup (cityDoubleKey e2) m with _ | old
        · rw [(insertCityEntry_lookup_self hecf).1 hold]; rfl
        · rw [(insertCityEntry_lookup_self hecf).2 old hold]; rfl
    have hres := ih (done ++ [e]) (insertCityEntry m e) hcf1a
      (fun x hx => hcf2 x (by simp [hx])) hA2 hB2
    have happ : (done ++ [e]) ++ t = done ++ e :: t := by simp
    rw [happ] at hres
    simpa using hres

/-- C9: find_city with an admin name returns the admin-qualified entry when
that key exists and otherwise falls back to the admin-agnostic key; city
loading folds insertCityEntry over the parsed rows in order; and among
entries sharing an admin-agnostic key the one retained under that key has
the highest population. -/
theorem find_city_preference_and_retention :
    (∀ (g : Gazetteer) (cc a1 cy : String), cc ≠ "" → cy ≠ "" → a1 ≠ "" →
      (∀ e, dlookup (pyStrip (pyUpper cc) ++ ":" ++ pyNormalize a1 ++ ":" ++ pyNormalize cy)
          g.cities_by_key = some e → g.find_city cc a1 cy = some e) ∧
      (dlookup (pyStrip (pyUpper cc) ++ ":" ++ pyNormalize a1 ++ ":" ++ pyNormalize cy)
          g.cities_by_key = Option.none →
        g.find_city cc a1 cy =
          dlookup (pyStrip (pyUpper cc) ++ ":" ++ pyNormalize cy) g.cities_by_key)) ∧
    (∀ (rows : List Row) (es : List CityEntry) (m0 : List (String × CityEntry)),
      parseCityRows rows = Except.ok es →
      rows.foldlM loadCityRow m0 = Except.ok (es.foldl insertCityEntry m0)) ∧
    (∀ (es : List CityEntry), (∀ e ∈ es, numColons e.country_iso2 = 0) →
      ∀ e0 ∈ es, ∃ e, dlookup (cityDoubleKey e0) (es.foldl insertCityEntry []) = some e ∧
        e ∈ es ∧ cityDoubleKey e = cityDoubleKey e0 ∧
        ∀ e2 ∈ es, cityDoubleKey e2 = cityDoubleKey e0 → e2.pop ≤ e.pop) := by
  refine ⟨?_, ?_, ?_⟩
  · intro g cc a1 cy hcc hcy ha1
    constructor
    · intro e he
      simp [Gazetteer.find_city, hcc, hcy, ha1, he]
    · intro hnone
      simp [Gazetteer.find_city, hcc, hcy, ha1, hnone]
  · intro rows
    induction rows with
    | nil =>
      intro es m0 h
      obtain rfl := Except.ok.inj h
      rfl
    | cons row rows ih =>
      intro es m0 h
      simp only [parseCityRows] at h
      cases hp : parseCityRow row with
      | error e => simp [hp] at h
      | ok entry =>
        simp only [hp] at h
        cases hm : parseCityRows rows with
        | error e => simp [hm] at h
        | ok es2 =>
          simp only [hm] at h
          obtain rfl := Except.ok.inj h
          simp only [List.foldlM_cons, List.foldl_cons]
          have hrow : loadCityRow m0 row = Except.ok (insertCityEntry m0 entry) := by
            simp [loadCityRow, hp, bind, Except.bind, pure, Except.pure]
          simp only [hrow, bind, Except.bind]
          exact ih es2 (insertCityEntry m0 entry) hm
  · intro es hcf e0 he0
    obtain ⟨hA, hB⟩ := insert_fold_invariant es [] []
      (by simp) hcf (by simp [dlookup]) (by simp)
    have hs := hB e0 (by simpa using he0)
    obtain ⟨e, he⟩ := Option.isSome_iff_exists.mp hs
    obtain ⟨h1, h2, h3⟩ := hA _ e he (numColons_doubleKey (hcf e0 he0))
    exact ⟨e, he, by simpa using h1, h2, fun e2 h2m hk => h3 e2 (by simpa using h2m) hk⟩

/-- Witness for C9: two Los Angeles rows for the same country and city
under different admin names; the admin-agnostic key retains the
higher-population entry. -/
theorem find_city_preference_and_retention_witness :
    ∃ e, dlookup (cityDoubleKey ⟨34.05, -118.24, "Los Angeles", "California", "US", 3900000⟩)
        ([(⟨34.05, -118.24, "Los Angeles", "California", "US", 3900000⟩ : CityEntry),
          ⟨33, -117, "Los Angeles", "Texas", "US", 100⟩].foldl insertCityEntry []) = some e ∧
      e ∈ [(⟨34.05, -118.24, "Los Angeles", "California", "US", 3900000⟩ : CityEntry),
          ⟨33, -117, "Los Angeles", "Texas", "US", 100⟩] ∧
      cityDoubleKey e =
        cityDoubleKey ⟨34.05, -118.24, "Los Angeles", "California", "US", 3900000⟩ ∧
      ∀ e2 ∈ [(⟨34.05, -118.24, "Los Angeles", "California", "US", 3900000⟩ : CityEntry),
          ⟨33, -117, "Los Angeles", "Texas", "US", 100⟩],
        cityDoubleKey e2 =
          cityDoubleKey ⟨34.05, -118.24, "Los Angeles", "California", "US", 3900000⟩ →
        e2.pop ≤ e.pop := by
  apply find_city_preference_and_retention.2.2
  · intro e he
    fin_cases he <;> decide
  · simp

end CrisisIntel
